import Mathlib

/-!
Shallow embedding of the text-parsing core of `library/nxos_ping.py`.

Python strings are modelled as Lean `String`, and the Python operations the
source uses (`split`, `strip`, `lstrip`, slicing with a negative bound, the
`in` substring test, `list.index`) are modelled by executable functions on
the underlying character lists, written with structural recursion so that
concrete runs reduce inside the kernel.

Python exceptions are modelled by `Except PyErr`.
-/

/-- Error values: `indexError` models a Python IndexError from an
out-of-range subscript and `unboundLocal` the UnboundLocalError raised when
a function reads a local variable that was never assigned; `markerNotFound`,
`malformedSummary` and `malformedRtt` are the typed parse errors named by
the specification (never produced by the source). -/
inductive PyErr where
  | indexError
  | unboundLocal
  | markerNotFound
  | malformedSummary
  | malformedRtt
deriving DecidableEq, Repr

/-- Boolean test that `p` is an initial segment of `cs`. -/
def charsStartWith : List Char → List Char → Bool
  | [], _ => true
  | _ :: _, [] => false
  | p :: ps, c :: cs => p == c && charsStartWith ps cs

/-- Python's substring test `pat in s`, on character lists: some tail of the
list starts with `pat`. -/
def containsSub (pat : List Char) : List Char → Bool
  | [] => charsStartWith pat []
  | c :: cs => charsStartWith pat (c :: cs) || containsSub pat cs

/-- Python `pat in s`. -/
def pyIn (pat s : String) : Bool := containsSub pat.data s.data

/-- Characters removed by Python's `str.strip()` with no argument. -/
def pyIsSpace (c : Char) : Bool :=
  c == ' ' || c == '\t' || c == '\n' || c == '\r' || c == '\x0b' || c == '\x0c'

/-- Python `s.lstrip()`. -/
def pyLStrip (s : String) : String := String.mk (s.data.dropWhile pyIsSpace)

/-- Python `s.strip()`. -/
def pyStrip (s : String) : String :=
  String.mk (((s.data.dropWhile pyIsSpace).reverse.dropWhile pyIsSpace).reverse)

/-- Python `s[:-n]` for `n ≥ 0`; when `len(s) ≤ n` the result is empty. -/
def pySliceToNeg (n : Nat) (s : String) : String :=
  String.mk (s.data.take (s.data.length - n))

/-- Splitting worker. `fuel` bounds the recursion depth; every call site
passes the length of the list being split, which the run never exhausts
because each step shortens the list by at least one character. `sep` is
assumed non-empty, as it is at every call site (Python raises ValueError on
an empty separator). -/
def pySplitChAux (sep : List Char) : Nat → List Char → List (List Char)
  | _, [] => [[]]
  | 0, cs => [cs]
  | fuel + 1, c :: rest =>
    if charsStartWith sep (c :: rest) then
      [] :: pySplitChAux sep fuel (rest.drop (sep.length - 1))
    else
      match pySplitChAux sep fuel rest with
      | [] => [[c]]
      | piece :: pieces => (c :: piece) :: pieces

/-- Python `s.split(sep)` for a non-empty separator: splits on the
non-overlapping occurrences of `sep`, scanning left to right, keeping empty
pieces; yields `[s]` when `sep` does not occur. -/
def pySplit (s sep : String) : List String :=
  (pySplitChAux sep.data s.data.length s.data).map String.mk

/-- Summary dictionary built by `get_summary`. -/
structure Summary where
  packets_tx : String
  packets_rx : String
  packet_loss : String
deriving DecidableEq, Repr

/-- RTT dictionary built by `get_rtt`; `none` models Python `None`. -/
structure Rtt where
  min : Option String
  avg : Option String
  max : Option String
deriving DecidableEq, Repr

/-- Triple returned by `get_ping_results`: the split lines, the summary and
the RTT dictionary. -/
structure PingResult where
  lines : List String
  summary : Summary
  rtt : Rtt
deriving DecidableEq, Repr

/-- Embeds `get_summary(results_list, reference_point)` (source lines
184-194): reads the line after `reference_point`, splits it on a comma, and
builds the summary from the first three fields, trimming each token at the
literal `packets` (or `packet` for the loss field).  Each Python subscript
that can go out of range is an `indexError` exit. -/
def get_summary (results_list : List String) (reference_point : Nat) :
    Except PyErr Summary :=
  match results_list.get? (reference_point + 1) with
  | none => .error .indexError
  | some summary_string =>
    match (pySplit summary_string ",").get? 0 with
    | none => .error .indexError
    | some field0 =>
      match (pySplit summary_string ",").get? 1 with
      | none => .error .indexError
      | some field1 =>
        match (pySplit summary_string ",").get? 2 with
        | none => .error .indexError
        | some field2 =>
          .ok { packets_tx := pyStrip ((pySplit field0 "packets").headD "")
                packets_rx := pyStrip ((pySplit field1 "packets").headD "")
                packet_loss := pyStrip ((pySplit field2 "packet").headD "") }

/-- Embeds `get_rtt(results_list, packet_loss, location)` (source lines
197-209): when `packet_loss` differs from the literal `"100.00%"` it reads
the line at `location`, takes entry 1 of its split on `=`, splits that on
`/`, and builds the dictionary from the first three tokens (`lstrip` on the
min token, `[:-3]` on the max token); otherwise it returns the dictionary
with all three values `None`. -/
def get_rtt (results_list : List String) (packet_loss : String)
    (location : Nat) : Except PyErr Rtt :=
  if packet_loss ≠ "100.00%" then
    match results_list.get? location with
    | none => .error .indexError
    | some rtt_string =>
      match (pySplit rtt_string "=").get? 1 with
      | none => .error .indexError
      | some base =>
        match (pySplit base "/").get? 0 with
        | none => .error .indexError
        | some tok0 =>
          match (pySplit base "/").get? 1 with
          | none => .error .indexError
          | some tok1 =>
            match (pySplit base "/").get? 2 with
            | none => .error .indexError
            | some tok2 =>
              .ok { min := some (pyLStrip tok0)
                    avg := some tok1
                    max := some (pySliceToNeg 3 tok2) }
  else
    .ok { min := none, avg := none, max := none }

/-- Embeds `get_statistics_summary_line(response_as_list)` (source lines
212-216): scans the lines in order and, for each line containing `---`,
overwrites `index` with `response_as_list.index(each)` — Python's
`list.index`, i.e. the position of the FIRST element equal to `each`.  When
no line matches, the final `return index` reads a never-assigned local, an
UnboundLocalError. -/
def get_statistics_summary_line (response_as_list : List String) :
    Except PyErr Nat :=
  match response_as_list.foldl
      (fun index each =>
        if pyIn "---" each then some (response_as_list.indexOf each) else index)
      none with
  | some index => .ok index
  | none => .error .unboundLocal

/-- Embeds the parsing pipeline of `get_ping_results` (source lines
219-226) after the device interaction, on an already split line list:
marker scan, then summary from the line after the marker, then RTT from two
lines after the marker using the parsed loss string. -/
def parse_ping_lines (splitted_ping : List String) : Except PyErr PingResult :=
  match get_statistics_summary_line splitted_ping with
  | .error e => .error e
  | .ok reference_point =>
    match get_summary splitted_ping reference_point with
    | .error e => .error e
    | .ok summary =>
      match get_rtt splitted_ping summary.packet_loss (reference_point + 2) with
      | .error e => .error e
      | .ok rtt => .ok { lines := splitted_ping, summary := summary, rtt := rtt }

/-- Embeds `get_ping_results` (source lines 219-226) with the device
interaction out of scope: the raw ping text is handed in and split on the
newline character, exactly as `ping.split('\n')` does. -/
def get_ping_results (ping : String) : Except PyErr PingResult :=
  parse_ping_lines (pySplit ping "\n")

/-- Joining with a separator; `joinSep sep ((pySplit s sep).drop 1)` is the
entire remainder of `s` after the first occurrence of `sep`. -/
def joinSep (sep : String) : List String → String
  | [] => ""
  | [x] => x
  | x :: y :: rest => x ++ sep ++ joinSep sep (y :: rest)

/-- Definition following the spec's words for `parseRtt` (spec section 4.1),
for comparison with the source's `get_rtt`: on a loss string other than
`"100.00%"` it reads the RTT line, splits on the FIRST `=` to discard the
label — keeping the ENTIRE remainder — fails with `malformedRtt` when the
split does not yield two parts, splits the remainder on `/` into exactly
three tokens (failing otherwise), lstrips the min token and drops the
three-character unit suffix from the max token. -/
def parseRtt_spec (lines : List String) (packetLoss : String)
    (rttLineIndex : Nat) : Except PyErr Rtt :=
  if packetLoss = "100.00%" then
    .ok { min := none, avg := none, max := none }
  else
    match lines.get? rttLineIndex with
    | none => .error .malformedRtt
    | some s =>
      match pySplit s "=" with
      | _label :: rest1 :: restMore =>
        match pySplit (joinSep "=" (rest1 :: restMore)) "/" with
        | [mn, av, mx] =>
          .ok { min := some (pyLStrip mn), avg := some av
                max := some (pySliceToNeg 3 mx) }
        | _ => .error .malformedRtt
      | _ => .error .malformedRtt

/-- Scenario A line list from the spec. -/
def scenarioA : List String :=
  ["PING 8.8.8.8: 56 data bytes", "",
   "--- 8.8.8.8 ping statistics ---",
   "8 packets transmitted, 8 packets received, 0.00% packet loss",
   "round-trip min/avg/max = 5.978/6.264/6.564 ms"]

/-- Scenario A raw text: the five lines joined by newlines. -/
def scenarioA_text : String :=
  "PING 8.8.8.8: 56 data bytes\n\n--- 8.8.8.8 ping statistics ---\n8 packets transmitted, 8 packets received, 0.00% packet loss\nround-trip min/avg/max = 5.978/6.264/6.564 ms"

/-- Expected parse of scenario A. -/
def scenarioA_result : PingResult :=
  { lines := scenarioA
    summary := { packets_tx := "8", packets_rx := "8", packet_loss := "0.00%" }
    rtt := { min := some "5.978", avg := some "6.264", max := some "6.564" } }

example : pySplit "a,,b" "," = ["a", "", "b"] := rfl
example : pySplit "" "," = [""] := rfl
example : pySplit "," "," = ["", ""] := rfl
example : pySplit "aaa" "aa" = ["", "a"] := rfl
example : pySplit "8 packets transmitted, 8 packets received, 0.00% packet loss" "," =
    ["8 packets transmitted", " 8 packets received", " 0.00% packet loss"] := rfl
example : pyStrip "  0.00% " = "0.00%" := rfl
example : pySliceToNeg 3 "6.564 ms" = "6.564" := rfl
example : pySliceToNeg 3 "ab" = "" := rfl
example : pyIn "---" "--- x ---" = true := rfl
example : pyIn "---" "PING 8.8.8.8" = false := rfl
example : get_statistics_summary_line ["---", "---"] = .ok 0 := rfl

/-- Folding a last-match-wins overwrite over a list lands on the last element
satisfying the test, and on the initial value when none does. -/
theorem foldl_overwrite_last {α β : Type} (p : α → Bool) (f : α → β) :
    ∀ (l : List α) (init : Option β),
      l.foldl (fun acc each => if p each then some (f each) else acc) init
        = ((l.filter p).getLast?).elim init (fun m => some (f m)) := by
  intro l
  induction l with
  | nil => intro init; rfl
  | cons a l ih =>
    intro init
    rw [List.foldl_cons, ih]
    by_cases h : p a
    · rw [List.filter_cons_of_pos h]
      cases hf : l.filter p with
      | nil => simp [hf, h, Option.elim]
      | cons b bs =>
        rw [List.getLast?_cons_cons]
        cases hg : (b :: bs).getLast? with
        | none => simp at hg
        | some m => simp [Option.elim]
    · rw [List.filter_cons_of_neg h]
      simp [h]

/-- C1: the scan does NOT return the index of the last line containing
`---` when that line is textually identical to an earlier line: on
`["---", "---"]` the last matching line has index 1, yet the function
returns 0, because Python's `list.index` finds the first occurrence. -/
theorem get_statistics_summary_line_duplicate_marker_cex :
    get_statistics_summary_line ["---", "---"] = .ok 0 ∧
    get_statistics_summary_line ["---", "---"] ≠ .ok 1 := by
  refine ⟨rfl, fun h => ?_⟩
  have h0 : get_statistics_summary_line ["---", "---"] = .ok 0 := rfl
  rw [h0] at h
  exact absurd (Except.ok.inj h) (by decide)

/-- C1 (amended): for every line list whose filter by the `---` substring
test has a last element `m`, `get_statistics_summary_line` returns the index
of the FIRST occurrence of `m` in the list (`List.indexOf`, Python's
`list.index`); this equals the index of the last matching line only when
that line's text does not occur earlier in the list. -/
theorem get_statistics_summary_line_last_match (l : List String) (m : String)
    (h : (l.filter (fun s => pyIn "---" s)).getLast? = some m) :
    get_statistics_summary_line l = .ok (l.indexOf m) := by
  unfold get_statistics_summary_line
  rw [foldl_overwrite_last (fun s => pyIn "---" s) (fun each => l.indexOf each) l none, h]
  rfl

/-- C1 witness: a concrete list with one matching line at index 1. -/
theorem get_statistics_summary_line_last_match_w :
    get_statistics_summary_line ["PING", "--- stats ---", "tail"] = .ok 1 := by
  rw [get_statistics_summary_line_last_match ["PING", "--- stats ---", "tail"]
    "--- stats ---" (by decide)]
  rfl

/-- C2: on an input with no `---` line the function does fail, but with a
Python UnboundLocalError (the local `index` is never assigned before
`return index`), not with the typed `MarkerNotFoundError` the claim
names. -/
theorem get_statistics_summary_line_no_marker_cex :
    get_statistics_summary_line [""] = .error .unboundLocal ∧
    PyErr.unboundLocal ≠ PyErr.markerNotFound :=
  ⟨rfl, by decide⟩

/-- C2 (amended): for every list of lines in which no line contains `---`,
`get_statistics_summary_line` fails by reading the never-assigned local
`index`, an unhandled UnboundLocalError — a crash, not a typed parse
error. -/
theorem get_statistics_summary_line_no_marker_crash (l : List String)
    (h : ∀ s ∈ l, pyIn "---" s = false) :
    get_statistics_summary_line l = .error .unboundLocal := by
  unfold get_statistics_summary_line
  rw [foldl_overwrite_last (fun s => pyIn "---" s) (fun each => l.indexOf each) l none]
  have hf : l.filter (fun s => pyIn "---" s) = [] := by
    rw [List.filter_eq_nil_iff]
    intro a ha
    simp [h a ha]
  rw [hf]
  rfl

/-- C2 witness: a concrete marker-free list. -/
theorem get_statistics_summary_line_no_marker_crash_w :
    get_statistics_summary_line ["PING 8.8.8.8: 56 data bytes", ""] =
      .error .unboundLocal :=
  get_statistics_summary_line_no_marker_crash _ (by decide)

/-- List lookup below the length always yields a value. -/
theorem get?_some_of_lt {α : Type} (l : List α) (n : Nat) (h : n < l.length) :
    ∃ x, l.get? n = some x := by
  cases hx : l.get? n
  · exact absurd (List.get?_eq_none.mp hx) (by omega)
  · exact ⟨_, rfl⟩

/-- Shape of every successful `get_summary` run: the summary line exists,
its comma split has at least three fields, and the result is built from the
first three. -/
theorem get_summary_ok_shape (l : List String) (r : Nat) (v : Summary)
    (hv : get_summary l r = .ok v) :
    ∃ s f0 f1 f2, l.get? (r + 1) = some s ∧
      (pySplit s ",").get? 0 = some f0 ∧ (pySplit s ",").get? 1 = some f1 ∧
      (pySplit s ",").get? 2 = some f2 ∧
      v = { packets_tx := pyStrip ((pySplit f0 "packets").headD "")
            packets_rx := pyStrip ((pySplit f1 "packets").headD "")
            packet_loss := pyStrip ((pySplit f2 "packet").headD "") } := by
  unfold get_summary at hv
  rcases hs : l.get? (r + 1) with - | s <;> rw [hs] at hv <;> dsimp only at hv
  · exact Except.noConfusion hv
  rcases h0 : (pySplit s ",").get? 0 with - | f0 <;> rw [h0] at hv <;> dsimp only at hv
  · exact Except.noConfusion hv
  rcases h1 : (pySplit s ",").get? 1 with - | f1 <;> rw [h1] at hv <;> dsimp only at hv
  · exact Except.noConfusion hv
  rcases h2 : (pySplit s ",").get? 2 with - | f2 <;> rw [h2] at hv <;> dsimp only at hv
  · exact Except.noConfusion hv
  exact ⟨s, f0, f1, f2, rfl, h0, h1, h2, (Except.ok.inj hv).symm⟩

/-- The only error value `get_summary` ever produces is `indexError`. -/
theorem get_summary_error_shape (l : List String) (r : Nat) (e : PyErr)
    (he : get_summary l r = .error e) : e = .indexError := by
  unfold get_summary at he
  rcases hs : l.get? (r + 1) with - | s <;> rw [hs] at he <;> dsimp only at he
  · exact (Except.error.inj he).symm
  rcases h0 : (pySplit s ",").get? 0 with - | f0 <;> rw [h0] at he <;> dsimp only at he
  · exact (Except.error.inj he).symm
  rcases h1 : (pySplit s ",").get? 1 with - | f1 <;> rw [h1] at he <;> dsimp only at he
  · exact (Except.error.inj he).symm
  rcases h2 : (pySplit s ",").get? 2 with - | f2 <;> rw [h2] at he <;> dsimp only at he
  · exact (Except.error.inj he).symm
  exact Except.noConfusion he

/-- Shape of every successful `get_rtt` run on a loss string other than
`"100.00%"`. -/
theorem get_rtt_ok_shape (l : List String) (loss : String) (i : Nat) (v : Rtt)
    (h : loss ≠ "100.00%") (hv : get_rtt l loss i = .ok v) :
    ∃ s base t0 t1 t2, l.get? i = some s ∧
      (pySplit s "=").get? 1 = some base ∧
      (pySplit base "/").get? 0 = some t0 ∧ (pySplit base "/").get? 1 = some t1 ∧
      (pySplit base "/").get? 2 = some t2 ∧
      v = { min := some (pyLStrip t0), avg := some t1
            max := some (pySliceToNeg 3 t2) } := by
  unfold get_rtt at hv
  rw [if_pos h] at hv
  rcases hs : l.get? i with - | s <;> rw [hs] at hv <;> dsimp only at hv
  · exact Except.noConfusion hv
  rcases hb : (pySplit s "=").get? 1 with - | base <;> rw [hb] at hv <;> dsimp only at hv
  · exact Except.noConfusion hv
  rcases h0 : (pySplit base "/").get? 0 with - | t0 <;> rw [h0] at hv <;> dsimp only at hv
  · exact Except.noConfusion hv
  rcases h1 : (pySplit base "/").get? 1 with - | t1 <;> rw [h1] at hv <;> dsimp only at hv
  · exact Except.noConfusion hv
  rcases h2 : (pySplit base "/").get? 2 with - | t2 <;> rw [h2] at hv <;> dsimp only at hv
  · exact Except.noConfusion hv
  exact ⟨s, base, t0, t1, t2, rfl, hb, h0, h1, h2, (Except.ok.inj hv).symm⟩

/-- The only error value `get_rtt` ever produces is `indexError`. -/
theorem get_rtt_error_shape (l : List String) (loss : String) (i : Nat)
    (e : PyErr) (he : get_rtt l loss i = .error e) : e = .indexError := by
  unfold get_rtt at he
  by_cases h : loss = "100.00%"
  · rw [if_neg (by simp [h])] at he
    exact Except.noConfusion he
  rw [if_pos h] at he
  rcases hs : l.get? i with - | s <;> rw [hs] at he <;> dsimp only at he
  · exact (Except.error.inj he).symm
  rcases hb : (pySplit s "=").get? 1 with - | base <;> rw [hb] at he <;> dsimp only at he
  · exact (Except.error.inj he).symm
  rcases h0 : (pySplit base "/").get? 0 with - | t0 <;> rw [h0] at he <;> dsimp only at he
  · exact (Except.error.inj he).symm
  rcases h1 : (pySplit base "/").get? 1 with - | t1 <;> rw [h1] at he <;> dsimp only at he
  · exact (Except.error.inj he).symm
  rcases h2 : (pySplit base "/").get? 2 with - | t2 <;> rw [h2] at he <;> dsimp only at he
  · exact (Except.error.inj he).symm
  exact Except.noConfusion he

/-- C3 counterexample: on a summary line of three empty comma fields every
trimmed token is empty, yet `get_summary` returns a summary of empty
strings instead of failing, contradicting the claimed `MalformedSummaryError`
in the empty-token case. -/
theorem get_summary_empty_token_cex :
    get_summary ["marker", ",,"] 0 =
      .ok { packets_tx := "", packets_rx := "", packet_loss := "" } ∧
    ∀ e, get_summary ["marker", ",,"] 0 ≠ .error e := by
  refine ⟨rfl, fun e h => ?_⟩
  have h0 : get_summary ["marker", ",,"] 0 =
      .ok { packets_tx := "", packets_rx := "", packet_loss := "" } := rfl
  rw [h0] at h
  exact Except.noConfusion h

/-- C3 (amended): `get_summary` fails exactly when the line after
`reference_point` is absent or its comma split has fewer than three fields,
and the failure is the Python `IndexError` (an unhandled crash), not a typed
`MalformedSummaryError`; an empty trimmed token is returned silently inside
the summary, not rejected. -/
theorem get_summary_failure_modes (l : List String) (r : Nat) :
    (∀ e, get_summary l r = .error e → e = .indexError) ∧
    ((∃ v, get_summary l r = .ok v) ↔
      ∃ s, l.get? (r + 1) = some s ∧ 3 ≤ (pySplit s ",").length) := by
  refine ⟨get_summary_error_shape l r, ?_, ?_⟩
  · rintro ⟨v, hv⟩
    obtain ⟨s, f0, f1, f2, hs, -, -, h2, -⟩ := get_summary_ok_shape l r v hv
    obtain ⟨hlt, -⟩ := List.get?_eq_some.mp h2
    exact ⟨s, hs, by omega⟩
  · rintro ⟨s, hs, h3⟩
    unfold get_summary
    rw [hs]
    dsimp only
    obtain ⟨f0, h0⟩ := get?_some_of_lt (pySplit s ",") 0 (by omega)
    obtain ⟨f1, h1⟩ := get?_some_of_lt (pySplit s ",") 1 (by omega)
    obtain ⟨f2, h2⟩ := get?_some_of_lt (pySplit s ",") 2 (by omega)
    rw [h0]
    dsimp only
    rw [h1]
    dsimp only
    rw [h2]
    dsimp only
    exact ⟨_, rfl⟩

/-- C3 witness: a well-formed summary line parses, and a two-field line sits
below the three-field bound. -/
theorem get_summary_failure_modes_w :
    ∃ v, get_summary ["--- ping statistics ---",
      "8 packets transmitted, 8 packets received, 0.00% packet loss"] 0 =
        .ok v :=
  (get_summary_failure_modes ["--- ping statistics ---",
    "8 packets transmitted, 8 packets received, 0.00% packet loss"] 0).2.mpr
    ⟨"8 packets transmitted, 8 packets received, 0.00% packet loss", rfl,
      by decide⟩

/-- C4 counterexample: on an RTT line whose `/` split yields FOUR tokens the
claim requires a failure, yet `get_rtt` succeeds, silently ignoring the
extra token (and truncating the third one by three characters). -/
theorem get_rtt_extra_tokens_cex :
    get_rtt ["x=1/2/3/4"] "0%" 0 =
      .ok { min := some "1", avg := some "2", max := some "" } ∧
    ∀ e, get_rtt ["x=1/2/3/4"] "0%" 0 ≠ .error e := by
  refine ⟨rfl, fun e h => ?_⟩
  have h0 : get_rtt ["x=1/2/3/4"] "0%" 0 =
      .ok { min := some "1", avg := some "2", max := some "" } := rfl
  rw [h0] at h
  exact Except.noConfusion h

/-- C4 (amended): for a loss string other than `"100.00%"`, `get_rtt` fails
exactly when the line at `location` is absent, the `=` split yields fewer
than two parts, or the `/` split of part 1 yields fewer than three tokens —
a `/` split with more than three tokens succeeds with the extras ignored —
and the failure is the Python `IndexError` (an unhandled crash), not a
typed `MalformedRttError`. -/
theorem get_rtt_failure_modes (l : List String) (loss : String) (i : Nat)
    (h : loss ≠ "100.00%") :
    (∀ e, get_rtt l loss i = .error e → e = .indexError) ∧
    ((∃ v, get_rtt l loss i = .ok v) ↔
      ∃ s base, l.get? i = some s ∧ (pySplit s "=").get? 1 = some base ∧
        3 ≤ (pySplit base "/").length) := by
  refine ⟨get_rtt_error_shape l loss i, ?_, ?_⟩
  · rintro ⟨v, hv⟩
    obtain ⟨s, base, t0, t1, t2, hs, hb, -, -, h2, -⟩ :=
      get_rtt_ok_shape l loss i v h hv
    obtain ⟨hlt, -⟩ := List.get?_eq_some.mp h2
    exact ⟨s, base, hs, hb, by omega⟩
  · rintro ⟨s, base, hs, hb, h3⟩
    unfold get_rtt
    rw [if_pos h, hs]
    dsimp only
    rw [hb]
    dsimp only
    obtain ⟨t0, h0⟩ := get?_some_of_lt (pySplit base "/") 0 (by omega)
    obtain ⟨t1, h1⟩ := get?_some_of_lt (pySplit base "/") 1 (by omega)
    obtain ⟨t2, h2⟩ := get?_some_of_lt (pySplit base "/") 2 (by omega)
    rw [h0]
    dsimp only
    rw [h1]
    dsimp only
    rw [h2]
    dsimp only
    exact ⟨_, rfl⟩

/-- C4 witness: a three-token RTT line parses. -/
theorem get_rtt_failure_modes_w :
    ∃ v, get_rtt ["round-trip min/avg/max = 1/2/3 ms"] "0.00%" 0 = .ok v :=
  (get_rtt_failure_modes ["round-trip min/avg/max = 1/2/3 ms"] "0.00%" 0
    (by decide)).2.mpr
    ⟨"round-trip min/avg/max = 1/2/3 ms", " 1/2/3 ms", rfl, rfl, by decide⟩

/-- C5: `get_rtt` returns the all-`None` dictionary exactly for the loss
string `"100.00%"` — in that case it succeeds no matter what the line list
or index is, the RTT line's content or absence included — and every
successful run for any other loss string returns all three fields present
(`min`, `avg` and `max` each carry a value). -/
theorem get_rtt_null_iff_total_loss (l : List String) (loss : String)
    (i : Nat) :
    (loss = "100.00%" →
      get_rtt l loss i = .ok { min := none, avg := none, max := none }) ∧
    ∀ v, get_rtt l loss i = .ok v →
      (loss ≠ "100.00%" → v.min.isSome ∧ v.avg.isSome ∧ v.max.isSome) ∧
      ((v.min = none ∧ v.avg = none ∧ v.max = none) ↔ loss = "100.00%") := by
  have hz : loss = "100.00%" →
      get_rtt l loss i = .ok { min := none, avg := none, max := none } := by
    intro h100
    unfold get_rtt
    rw [if_neg (by simp [h100])]
  refine ⟨hz, fun v hv => ?_⟩
  by_cases hl : loss = "100.00%"
  · rw [hz hl] at hv
    cases Except.ok.inj hv
    exact ⟨fun hc => absurd hl hc, by simp [hl]⟩
  · obtain ⟨s, base, t0, t1, t2, -, -, -, -, -, hv2⟩ :=
      get_rtt_ok_shape l loss i v hl hv
    subst hv2
    exact ⟨fun _ => ⟨rfl, rfl, rfl⟩, by simp [hl]⟩

/-- C5 witness: total loss yields the all-`None` dictionary even though the
index is far out of range. -/
theorem get_rtt_null_iff_total_loss_w :
    get_rtt ["only one line"] "100.00%" 5 =
      .ok { min := none, avg := none, max := none } :=
  (get_rtt_null_iff_total_loss ["only one line"] "100.00%" 5).1 rfl

/-- C7 counterexample: on a line with two `=` signs the source derives the
tokens from `split('=')[1]`, the segment BETWEEN the first and second `=`,
not from the entire remainder after the first `=` as the claim states: the
max tokens differ. -/
theorem get_rtt_multi_eq_cex :
    get_rtt ["l=1/2/3bcd=q"] "0%" 0 =
      .ok { min := some "1", avg := some "2", max := some "3" } ∧
    parseRtt_spec ["l=1/2/3bcd=q"] "0%" 0 =
      .ok { min := some "1", avg := some "2", max := some "3bc" } ∧
    ("3" : String) ≠ "3bc" :=
  ⟨rfl, rfl, by decide⟩

/-- C7 (amended): `get_rtt` derives the min/avg/max tokens from
`split('=')[1]`, the segment between the first and second `=`; only for an
RTT line containing exactly one `=` (with a three-token `/` split of the
remainder) does this agree with deriving them from the entire remainder
after the first `=`, as the spec-words parser does. -/
theorem get_rtt_single_eq_matches_spec (l : List String) (loss : String)
    (i : Nat) (s label base : String)
    (hloss : loss ≠ "100.00%") (hs : l.get? i = some s)
    (hsplit : pySplit s "=" = [label, base])
    (h3 : (pySplit base "/").length = 3) :
    get_rtt l loss i = parseRtt_spec l loss i := by
  obtain ⟨a, b, c, habc⟩ := List.length_eq_three.mp h3
  unfold get_rtt parseRtt_spec
  rw [if_pos hloss, if_neg hloss, hs]
  dsimp only
  rw [hsplit]
  dsimp only [List.get?]
  simp only [joinSep]
  rw [habc]
  dsimp only [List.get?]

/-- C7 witness: the conventional single-`=` RTT line, on which the source
and the spec-words parser agree. -/
theorem get_rtt_single_eq_matches_spec_w :
    get_rtt ["round-trip min/avg/max = 5.978/6.264/6.564 ms"] "0.00%" 0 =
      parseRtt_spec ["round-trip min/avg/max = 5.978/6.264/6.564 ms"]
        "0.00%" 0 :=
  get_rtt_single_eq_matches_spec
    ["round-trip min/avg/max = 5.978/6.264/6.564 ms"] "0.00%" 0
    "round-trip min/avg/max = 5.978/6.264/6.564 ms"
    "round-trip min/avg/max " " 5.978/6.264/6.564 ms"
    (by decide) rfl (by decide) (by decide)

/-- C6: on the exact five-line scenario A input the pipeline returns
summary tx 8, rx 8, loss 0.00% and rtt min 5.978, avg 6.264, max 6.564;
moreover the newline split of the joined raw text is exactly that line
list. -/
theorem scenarioA_parse_result :
    parse_ping_lines scenarioA = .ok scenarioA_result ∧
    pySplit scenarioA_text "\n" = scenarioA :=
  ⟨rfl, rfl⟩

/-- C8: parsing is deterministic and idempotent — the pipeline is a pure
function, so two runs on the same raw text are equal, and two successful
results have the same lines, summary and rtt componentwise. -/
theorem get_ping_results_deterministic (t : String) :
    get_ping_results t = get_ping_results t ∧
    ∀ r1 r2, get_ping_results t = .ok r1 → get_ping_results t = .ok r2 →
      r1.lines = r2.lines ∧ r1.summary = r2.summary ∧ r1.rtt = r2.rtt := by
  refine ⟨rfl, fun r1 r2 h1 h2 => ?_⟩
  rw [h1] at h2
  cases Except.ok.inj h2
  exact ⟨rfl, rfl, rfl⟩

set_option maxRecDepth 10000 in
/-- C8 witness: the two runs on scenario A's raw text agree componentwise. -/
theorem get_ping_results_deterministic_w :
    scenarioA_result.lines = scenarioA_result.lines ∧
    scenarioA_result.summary = scenarioA_result.summary ∧
    scenarioA_result.rtt = scenarioA_result.rtt :=
  (get_ping_results_deterministic scenarioA_text).2 scenarioA_result
    scenarioA_result rfl rfl

/-- C9: `get_summary` reads nothing but the line at `reference_point + 1` —
two line lists agreeing there (including the out-of-range case) give equal
results, whatever every other line, the marker line included, contains. -/
theorem get_summary_depends_only_on_summary_line (l1 l2 : List String)
    (r : Nat) (h : l1.get? (r + 1) = l2.get? (r + 1)) :
    get_summary l1 r = get_summary l2 r := by
  unfold get_summary
  rw [h]

/-- C9 witness: two lists differing everywhere but at index 1. -/
theorem get_summary_depends_only_on_summary_line_w :
    get_summary ["--- a ---", "1, 2, 3"] 0 =
      get_summary ["completely different", "1, 2, 3", "extra"] 0 :=
  get_summary_depends_only_on_summary_line ["--- a ---", "1, 2, 3"]
    ["completely different", "1, 2, 3", "extra"] 0 rfl

/-- C10: `get_rtt` recognises total loss only by exact equality with
`"100.00%"`: for every other loss string — `"100%"` and `"100.0%"`
included — it unconditionally reads the line at `location`, failing with
`indexError` when that index is out of range, and its successful results
never take the all-`None` branch. -/
theorem get_rtt_exact_loss_string_only (l : List String) (loss : String)
    (i : Nat) (h : loss ≠ "100.00%") :
    (l.length ≤ i → get_rtt l loss i = .error .indexError) ∧
    ∀ v, get_rtt l loss i = .ok v →
      v.min ≠ none ∧ v.avg ≠ none ∧ v.max ≠ none := by
  constructor
  · intro hlen
    unfold get_rtt
    rw [if_pos h, List.get?_eq_none.mpr hlen]
  · intro v hv
    obtain ⟨s, base, t0, t1, t2, -, -, -, -, -, hv2⟩ :=
      get_rtt_ok_shape l loss i v h hv
    subst hv2
    exact ⟨fun hx => Option.noConfusion hx, fun hx => Option.noConfusion hx,
      fun hx => Option.noConfusion hx⟩

/-- C10 witness: the alternative total-loss spelling `"100%"` does not take
the null branch — on an empty line list it crashes with IndexError. -/
theorem get_rtt_exact_loss_string_only_w :
    get_rtt [] "100%" 0 = .error .indexError :=
  (get_rtt_exact_loss_string_only [] "100%" 0 (by decide)).1 (by decide)

